import Mathlib

/-!
Verification of the Modbus RTU HAL (`src/hal/hal_modbus.c`).

The development shallowly embeds the protocol core of the C source:
the CRC16 engine (`crc16`), the request frame builder (the body of
`modbus_read_temperature` / `modbus_read_pressure`, lines 219-230 and
372-383), the bounded polling read loop (lines 246-260), the response
validation and decoding (lines 262-299), and the simulated register
session operations (`hal_modbus_write_register`,
`hal_modbus_read_registers`, `hal_modbus_disconnect`).

Machine integers are embedded as `Nat` with explicit truncation where
the C code casts: `(unsigned char)x` becomes `x % 256`, `x & 0xFF`
becomes `x &&& 0xFF`, `x >> 8` becomes `x >>> 8`, and the assignment
of an `int` expression to an `unsigned short` becomes `% 65536`.
Byte buffers become `List Nat` whose entries are bytes (< 256 in all
reachable states, since they come from `unsigned char` arrays).
-/

/-- One iteration count worth of the inner bit loop of `crc16`
(hal_modbus.c lines 137-144): `for (i = 8; i != 0; i--)` applies the
shift/XOR step to the running CRC.  `crc16Bits n crc` applies the step
`n` times. -/
def crc16Bits : Nat → Nat → Nat
  | 0, crc => crc
  | n + 1, crc =>
      crc16Bits n (if crc &&& 1 = 1 then (crc >>> 1) ^^^ 0xA001 else crc >>> 1)

/-- The Modbus RTU CRC16 of hal_modbus.c lines 131-147: initial value
0xFFFF; each buffer byte (an `unsigned char`, hence the `% 256`) is
XORed into the running CRC, followed by 8 shift/XOR rounds with
polynomial 0xA001. -/
def crc16 (buffer : List Nat) : Nat :=
  buffer.foldl (fun crc b => crc16Bits 8 (crc ^^^ (b % 256))) 0xFFFF

/-- The 8-byte Modbus RTU "Read Holding Registers" request of
hal_modbus.c lines 219-230 (identically lines 372-383):
`request[0] = (unsigned char)addr`, `request[1] = 0x03`,
`request[2] = (unsigned char)(reg >> 8)`,
`request[3] = (unsigned char)(reg & 0xFF)`, `request[4] = 0x00`,
`request[5] = 0x01`, then `crc = crc16(request, 6)`,
`request[6] = (unsigned char)(crc & 0xFF)`,
`request[7] = (unsigned char)((crc >> 8) & 0xFF)`. -/
def build_read_request (addr reg : Nat) : List Nat :=
  let r0 := addr % 256
  let r2 := (reg >>> 8) % 256
  let r3 := (reg &&& 0xFF) % 256
  let crc := crc16 [r0, 0x03, r2, r3, 0x00, 0x01]
  [r0, 0x03, r2, r3, 0x00, 0x01, (crc &&& 0xFF) % 256, ((crc >>> 8) &&& 0xFF) % 256]

/-- The distinct failure modes of the sensor-read path of
`modbus_read_temperature` / `modbus_read_pressure`, one per distinct
diagnostic branch of hal_modbus.c lines 262-292:
`IncompleteResponse` for `total_read < 7` (line 262), `UnexpectedEcho`
for the address/function echo mismatch (line 279), and
`UnexpectedByteCount` for `total_read < 5 || response[2] != 2`
(line 287). -/
inductive ReadError where
  | IncompleteResponse
  | UnexpectedEcho
  | UnexpectedByteCount
deriving DecidableEq

/-- Response validation and decoding of hal_modbus.c lines 262-295
(identically lines 415-448), operating on the accumulated response
bytes (the list's length is `total_read`):
first `total_read < 7` fails (line 262); then
`response[0] != addr || response[1] != 0x03` fails (line 279); then
`total_read < 5 || response[2] != 2` fails (line 287); finally the raw
value is `(unsigned short)((response[3] << 8) | response[4])`
(line 295). -/
def parseResponse (addr : Nat) (response : List Nat) : Except ReadError Nat :=
  if response.length < 7 then .error .IncompleteResponse
  else if response.getD 0 0 ≠ addr ∨ response.getD 1 0 ≠ 0x03 then
    .error .UnexpectedEcho
  else if response.length < 5 ∨ response.getD 2 0 ≠ 2 then
    .error .UnexpectedByteCount
  else
    .ok ((((response.getD 3 0) <<< 8) ||| response.getD 4 0) % 65536)

/-- The temperature scale of hal_modbus.c line 296:
`temperature = raw_temp / 10.0f`, embedded over `ℚ` (at the inputs the
claims exercise the float division is exact). -/
def temperatureOfRaw (raw : Nat) : ℚ := raw / 10

/-- The pressure scale of hal_modbus.c line 449:
`pressure = raw_pressure / 100.0f`, embedded over `ℚ`. -/
def pressureOfRaw (raw : Nat) : ℚ := raw / 100

/-- The polling receive loop of hal_modbus.c lines 246-260 (identically
lines 399-413).  `chunks k` is the byte sequence the transport delivers
at poll `k` (empty when `ReadFile` fails or returns nothing); a chunk is
truncated to the remaining buffer capacity, as `ReadFile` is asked for
at most `sizeof(response) - total_read` bytes.  `elapsed` is
`GetTickCount() - start_time` at the head of iteration `k`; each
iteration that continues ends with `Sleep(10)`, so the clock advances by
at least 10 ms plus an arbitrary extra delay `extra k` (read duration,
scheduling).  The loop runs while `total_read < 256` and
`elapsed < 1000`, and breaks as soon as `total_read >= 7`.  Returns the
accumulated bytes and the elapsed time at exit. -/
def readLoop (chunks : Nat → List Nat) (extra : Nat → Nat)
    (k : Nat) (elapsed : Nat) (acc : List Nat) : List Nat × Nat :=
  if h : acc.length < 256 ∧ elapsed < 1000 then
    let acc' := acc ++ (chunks k).take (256 - acc.length)
    if 7 ≤ acc'.length then (acc', elapsed)
    else readLoop chunks extra (k + 1) (elapsed + 10 + extra k) acc'
  else (acc, elapsed)
termination_by 1000 - elapsed
decreasing_by omega

/-- The `modbus_t` context of hal_modbus.h lines 7-13 (the serial
handle is owned by the transport collaborator and does not affect the
embedded operations; `connected` is the C `int` used as a flag). -/
structure modbus_ctx where
  device : String
  baud : Int
  slave_id : Int
  connected : Bool

/-- hal_modbus.c lines 105-113: `hal_modbus_write_register` returns -1
if the context is NULL (`none`) or not connected, and otherwise
simulates the write, returning 0.  The second component is the list of
frames transmitted on the wire: always empty, as the function performs
no transport write. -/
def hal_modbus_write_register (ctx : Option modbus_ctx) (addr value : Int) :
    Int × List (List Nat) :=
  match ctx with
  | none => (-1, [])
  | some c => if c.connected = false then (-1, []) else (0, [])

/-- hal_modbus.c lines 115-128: `hal_modbus_read_registers` returns -1
if the context is NULL, not connected, or `dest` is NULL; otherwise it
fills `dest[0..num-1]` with `(uint16_t)(rand() % 4000 + 1000)` and
returns 0.  `rand` is the pseudo-random stream (the `i`-th call of
`rand()`); the `uint16_t` cast is the identity since the value is below
5000.  The second component is the contents written to `dest`. -/
def hal_modbus_read_registers (ctx : Option modbus_ctx) (addr : Nat)
    (num : Nat) (destNull : Bool) (rand : Nat → Nat) : Int × List Nat :=
  match ctx with
  | none => (-1, [])
  | some c =>
    if c.connected = false ∨ destNull = true then (-1, [])
    else (0, (List.range num).map fun i => rand i % 4000 + 1000)

/-- Liveness of the caller's `modbus_t*` across `hal_modbus_disconnect`
calls: `null` is a NULL pointer, `alive c` points to an allocated
context with `connected = c`, and `dangling` points to memory already
released by `free`. -/
inductive CtxPtr where
  | null
  | alive (connected : Bool)
  | dangling
deriving DecidableEq

/-- hal_modbus.c lines 94-103: `hal_modbus_disconnect` does nothing on
NULL; on a live context it closes the handle, clears `connected` and
`free`s the context, leaving the caller's pointer dangling; calling it
again with that dangling pointer passes the `if (ctx)` test and reads
and `free`s already-freed memory — undefined behavior, modelled as
`none`. -/
def hal_modbus_disconnect : CtxPtr → Option CtxPtr
  | .null => some .null
  | .alive _ => some .dangling
  | .dangling => none

/-! ## Helper lemmas -/

theorem crc16Bits_lt (n : Nat) : ∀ crc : Nat, crc < 65536 → crc16Bits n crc < 65536 := by
  have hpow : (65536 : Nat) = 2 ^ 16 := by norm_num
  induction n with
  | zero => intro crc h; simpa [crc16Bits] using h
  | succ n ih =>
    intro crc h
    have hs : crc >>> 1 < 65536 := by
      rw [Nat.shiftRight_eq_div_pow]
      exact lt_of_le_of_lt (Nat.div_le_self _ _) h
    rw [crc16Bits]
    split
    · refine ih _ ?_
      rw [hpow]
      exact Nat.xor_lt_two_pow (hpow ▸ hs) (by norm_num)
    · exact ih _ hs

theorem crc16_lt (buffer : List Nat) : crc16 buffer < 65536 := by
  have hpow : (65536 : Nat) = 2 ^ 16 := by norm_num
  have key : ∀ (l : List Nat) (crc : Nat), crc < 65536 →
      l.foldl (fun crc b => crc16Bits 8 (crc ^^^ (b % 256))) crc < 65536 := by
    intro l
    induction l with
    | nil => intro crc h; simpa using h
    | cons b bs ih =>
      intro crc h
      simp only [List.foldl_cons]
      refine ih _ (crc16Bits_lt 8 _ ?_)
      rw [hpow]
      refine Nat.xor_lt_two_pow (hpow ▸ h) ?_
      have hb : b % 256 < 256 := Nat.mod_lt _ (by norm_num)
      exact lt_of_lt_of_le hb (by norm_num)
  unfold crc16
  exact key buffer 0xFFFF (by norm_num)

theorem parse_incomplete_iff (addr : Nat) (resp : List Nat) :
    parseResponse addr resp = .error .IncompleteResponse ↔ resp.length < 7 := by
  unfold parseResponse
  by_cases h1 : resp.length < 7
  · simp [h1]
  · rw [if_neg h1]
    constructor
    · intro hv
      exfalso
      revert hv
      split
      · simp
      · split
        · simp
        · simp
    · intro hlt
      exact absurd hlt h1

theorem readLoop_reaches_stop (chunks : Nat → List Nat) (extra : Nat → Nat) :
    ∀ (fuel k elapsed : Nat) (acc : List Nat), 1000 ≤ elapsed + 10 * fuel →
      256 ≤ acc.length ∨ 7 ≤ (readLoop chunks extra k elapsed acc).1.length ∨
        1000 ≤ (readLoop chunks extra k elapsed acc).2 := by
  intro fuel
  induction fuel with
  | zero =>
    intro k elapsed acc hf
    rw [readLoop]
    rw [dif_neg (by omega)]
    exact Or.inr (Or.inr (show 1000 ≤ elapsed by omega))
  | succ fuel ih =>
    intro k elapsed acc hf
    rw [readLoop]
    by_cases h : acc.length < 256 ∧ elapsed < 1000
    · rw [dif_pos h]
      by_cases h7 : 7 ≤ (acc ++ (chunks k).take (256 - acc.length)).length
      · rw [if_pos h7]
        exact Or.inr (Or.inl h7)
      · rw [if_neg h7]
        have hrec := ih (k + 1) (elapsed + 10 + extra k)
          (acc ++ (chunks k).take (256 - acc.length)) (by omega)
        rcases hrec with h256 | hrest
        · exact absurd h256 (by omega)
        · exact Or.inr hrest
    · rw [dif_neg h]
      rcases Nat.lt_or_ge acc.length 256 with hl | hl
      · exact Or.inr (Or.inr (show 1000 ≤ elapsed by omega))
      · exact Or.inl hl

/-! ## Claim theorems -/

/-- C1: every 8-byte read request frame built for a read has the layout
[slave_addr, 0x03, reg_addr_hi, reg_addr_lo, count_hi, count_lo,
crc_lo, crc_hi] with the register count fixed to 1 (bytes 0x00, 0x01),
and its trailing two bytes are the CRC16 of the first 6 bytes, low byte
first. -/
theorem request_frame_layout (addr reg : Nat) (ha : addr < 256) (hr : reg < 65536) :
    build_read_request addr reg =
      [addr, 0x03, reg / 256, reg % 256, 0x00, 0x01,
       crc16 [addr, 0x03, reg / 256, reg % 256, 0x00, 0x01] % 256,
       crc16 [addr, 0x03, reg / 256, reg % 256, 0x00, 0x01] / 256] ∧
    (build_read_request addr reg).drop 6 =
      [crc16 ((build_read_request addr reg).take 6) % 256,
       crc16 ((build_read_request addr reg).take 6) / 256] := by
  have hmask : ∀ x : Nat, x &&& 0xFF = x % 256 := fun x => by
    simpa using Nat.and_pow_two_sub_one_eq_mod x 8
  have hshift : ∀ x : Nat, x >>> 8 = x / 256 := fun x => by
    simpa using Nat.shiftRight_eq_div_pow x 8
  have ha' : addr % 256 = addr := Nat.mod_eq_of_lt ha
  have hr2 : (reg >>> 8) % 256 = reg / 256 := by rw [hshift]; omega
  have hr3 : (reg &&& 0xFF) % 256 = reg % 256 := by rw [hmask]; omega
  have hcrc : crc16 [addr, 0x03, reg / 256, reg % 256, 0x00, 0x01] < 65536 :=
    crc16_lt _
  have h6 : (crc16 [addr, 0x03, reg / 256, reg % 256, 0x00, 0x01] &&& 0xFF) % 256 =
      crc16 [addr, 0x03, reg / 256, reg % 256, 0x00, 0x01] % 256 := by
    rw [hmask]; omega
  have h7 : ((crc16 [addr, 0x03, reg / 256, reg % 256, 0x00, 0x01] >>> 8) &&& 0xFF) % 256 =
      crc16 [addr, 0x03, reg / 256, reg % 256, 0x00, 0x01] / 256 := by
    rw [hshift, hmask]; omega
  have hmain : build_read_request addr reg =
      [addr, 0x03, reg / 256, reg % 256, 0x00, 0x01,
       crc16 [addr, 0x03, reg / 256, reg % 256, 0x00, 0x01] % 256,
       crc16 [addr, 0x03, reg / 256, reg % 256, 0x00, 0x01] / 256] := by
    unfold build_read_request
    simp only [ha', hr2, hr3, h6, h7]
  refine ⟨hmain, ?_⟩
  rw [hmain]
  rfl

set_option maxRecDepth 8000 in
/-- C1 witness: the concrete frame for slave 1, register 0. -/
theorem request_frame_layout_witness :
    build_read_request 1 0 =
      [1, 0x03, 0, 0, 0x00, 0x01,
       crc16 [1, 0x03, 0, 0, 0x00, 0x01] % 256,
       crc16 [1, 0x03, 0, 0, 0x00, 0x01] / 256] :=
  (request_frame_layout 1 0 (by norm_num) (by norm_num)).1

set_option maxRecDepth 8000 in
/-- C2 counterexample: `crc16` of the canonical request payload
[0x01, 0x03, 0x00, 0x00, 0x00, 0x01] is not 0xC50A (the value with low
byte 0x0A and high byte 0xC5 asserted by the claim). -/
theorem crc16_vector_not_C50A :
    crc16 [0x01, 0x03, 0x00, 0x00, 0x00, 0x01] ≠ 0xC50A := by
  decide

set_option maxRecDepth 8000 in
/-- C2 amended: `crc16` of [0x01, 0x03, 0x00, 0x00, 0x00, 0x01] is
0x0A84 — low byte 0x84, high byte 0x0A — matching the published Modbus
RTU reference frame `01 03 00 00 00 01 84 0A`. -/
theorem crc16_vector_value :
    crc16 [0x01, 0x03, 0x00, 0x00, 0x00, 0x01] = 0x0A84 ∧
    crc16 [0x01, 0x03, 0x00, 0x00, 0x00, 0x01] &&& 0xFF = 0x84 ∧
    crc16 [0x01, 0x03, 0x00, 0x00, 0x00, 0x01] >>> 8 = 0x0A := by
  refine ⟨by decide, by decide, by decide⟩

/-- C3: the parser's outcome never depends on the response's CRC bytes:
two responses of the same length agreeing everywhere except at indices
5 and 6 parse to the same result — no recomputed CRC is compared. -/
theorem parse_ignores_crc_bytes (addr : Nat) (r1 r2 : List Nat)
    (hlen : r1.length = r2.length)
    (hagree : ∀ i : Nat, i ≠ 5 → i ≠ 6 → r1.getD i 0 = r2.getD i 0) :
    parseResponse addr r1 = parseResponse addr r2 := by
  have h0 := hagree 0 (by norm_num) (by norm_num)
  have h1 := hagree 1 (by norm_num) (by norm_num)
  have h2 := hagree 2 (by norm_num) (by norm_num)
  have h3 := hagree 3 (by norm_num) (by norm_num)
  have h4 := hagree 4 (by norm_num) (by norm_num)
  unfold parseResponse
  rw [hlen, h0, h1, h2, h3, h4]

/-- C3 witness: two responses differing only in their CRC field parse
identically. -/
theorem parse_ignores_crc_bytes_witness :
    parseResponse 1 [1, 0x03, 2, 0x00, 0xFA, 0x38, 0x07] =
      parseResponse 1 [1, 0x03, 2, 0x00, 0xFA, 0xAB, 0xCD] := by
  apply parse_ignores_crc_bytes
  · rfl
  · intro i h5 h6
    match i with
    | 0 => rfl
    | 1 => rfl
    | 2 => rfl
    | 3 => rfl
    | 4 => rfl
    | 5 => exact absurd rfl h5
    | 6 => exact absurd rfl h6
    | n + 7 =>
      rw [List.getD_eq_default, List.getD_eq_default] <;> simp

/-- C4 counterexample: a 5-byte response [1, 0x03, 2, 0x00, 0xFA] for
slave 1 passes every check the claim lists (length ≥ 5, address and
function echo, byte count 2), so by the claim its value would be
decoded; the code instead rejects it with the length-≥-7 gate
(`total_read < 7`, hal_modbus.c line 262), and no distinct
ShortResponse failure mode exists. -/
theorem parse_order_counterexample :
    parseResponse 1 [1, 0x03, 2, 0x00, 0xFA] = .error .IncompleteResponse := rfl

/-- C4 amended: the validation gates run in this order: first the
length check `total_read < 7` (else IncompleteResponse), then the
address/function echo check (else UnexpectedEcho), then the byte-count
check `response[2] == 2` (else UnexpectedByteCount; the code's
`total_read < 5` disjunct of that check is unreachable because the
first gate already ensured length ≥ 7); only then is the value
decoded. -/
theorem parse_check_order (addr : Nat) (resp : List Nat) :
    (resp.length < 7 → parseResponse addr resp = .error .IncompleteResponse) ∧
    (7 ≤ resp.length → (resp.getD 0 0 ≠ addr ∨ resp.getD 1 0 ≠ 0x03) →
      parseResponse addr resp = .error .UnexpectedEcho) ∧
    (7 ≤ resp.length → resp.getD 0 0 = addr → resp.getD 1 0 = 0x03 →
      resp.getD 2 0 ≠ 2 →
      parseResponse addr resp = .error .UnexpectedByteCount) ∧
    (7 ≤ resp.length → resp.getD 0 0 = addr → resp.getD 1 0 = 0x03 →
      resp.getD 2 0 = 2 →
      parseResponse addr resp =
        .ok ((((resp.getD 3 0) <<< 8) ||| resp.getD 4 0) % 65536)) := by
  refine ⟨?_, ?_, ?_, ?_⟩
  · intro hlen
    unfold parseResponse
    rw [if_pos hlen]
  · intro h7 hor
    unfold parseResponse
    rw [if_neg (by omega), if_pos hor]
  · intro h7 h0 h1 h2
    unfold parseResponse
    rw [if_neg (by omega), if_neg (by push_neg; exact ⟨h0, h1⟩), if_pos (Or.inr h2)]
  · intro h7 h0 h1 h2
    unfold parseResponse
    rw [if_neg (by omega), if_neg (by push_neg; exact ⟨h0, h1⟩),
      if_neg (by push_neg; exact ⟨by omega, h2⟩)]

/-- C4 witness: the empty response fails the first gate with
IncompleteResponse. -/
theorem parse_check_order_witness :
    parseResponse 1 ([] : List Nat) = .error .IncompleteResponse :=
  (parse_check_order 1 []).1 (by norm_num)

/-- C5: a response is accepted (parses to a value) only if its first
byte equals the requested slave address and its second byte is the
function code 0x03; and a received (≥ 7 byte) response whose first byte
differs from the requested address fails with UnexpectedEcho, decoding
no value. -/
theorem response_addr_gate (addr : Nat) (resp : List Nat) :
    (∀ v : Nat, parseResponse addr resp = .ok v →
      resp.getD 0 0 = addr ∧ resp.getD 1 0 = 0x03) ∧
    (7 ≤ resp.length → resp.getD 0 0 ≠ addr →
      parseResponse addr resp = .error .UnexpectedEcho) := by
  constructor
  · intro v hv
    unfold parseResponse at hv
    by_cases h1 : resp.length < 7
    · rw [if_pos h1] at hv
      simp at hv
    · rw [if_neg h1] at hv
      by_cases h2 : resp.getD 0 0 ≠ addr ∨ resp.getD 1 0 ≠ 0x03
      · rw [if_pos h2] at hv
        simp at hv
      · push_neg at h2
        exact h2
  · intro h7 hne
    unfold parseResponse
    rw [if_neg (by omega), if_pos (Or.inl hne)]

/-- C5 witness: a 7-byte response with first byte 2 for requested
slave 1 yields UnexpectedEcho. -/
theorem response_addr_gate_witness :
    parseResponse 1 [2, 0x03, 2, 0x00, 0xFA, 0x38, 0x07] =
      .error .UnexpectedEcho :=
  (response_addr_gate 1 [2, 0x03, 2, 0x00, 0xFA, 0x38, 0x07]).2
    (by decide) (by decide)

set_option maxRecDepth 8000 in
/-- C6: the synthetic valid response for slave 1 carrying raw value 250
(bytes [1, 0x03, 2, 0x00, 0xFA] followed by its CRC 0x0738, low byte
first) parses to raw value (response[3] << 8) | response[4] = 250, and
the temperature scale maps 250 to 25. -/
theorem parse_roundtrip_250 :
    crc16 [1, 0x03, 2, 0x00, 0xFA] = 0x0738 ∧
    parseResponse 1 [1, 0x03, 2, 0x00, 0xFA, 0x38, 0x07] =
      .ok (((0x00 <<< 8) ||| 0xFA) % 65536) ∧
    ((0x00 <<< 8) ||| 0xFA) % 65536 = 250 ∧
    temperatureOfRaw 250 = 25 := by
  refine ⟨by decide, rfl, by decide, ?_⟩
  norm_num [temperatureOfRaw]

/-- C7 evidence: the first disconnect on a live context frees it and
leaves the caller's pointer dangling; the second disconnect on that
same pointer is undefined behavior (`none`) — a double free — so
closing twice is not safe, contradicting the claim (code bug relative
to the spec's stated intent). -/
theorem disconnect_double_free :
    hal_modbus_disconnect (CtxPtr.alive true) = some CtxPtr.dangling ∧
    hal_modbus_disconnect CtxPtr.dangling = none := ⟨rfl, rfl⟩

/-- C8: read and write return -1 whenever the session is NULL or not
connected, and write on a connected session returns 0 while
transmitting nothing on the wire (empty frame list). -/
theorem session_state_gating (addr value : Int) (a n : Nat) (dn : Bool)
    (r : Nat → Nat) (c : modbus_ctx) :
    hal_modbus_write_register none addr value = (-1, []) ∧
    hal_modbus_read_registers none a n dn r = (-1, []) ∧
    (c.connected = false →
      hal_modbus_write_register (some c) addr value = (-1, []) ∧
      hal_modbus_read_registers (some c) a n dn r = (-1, [])) ∧
    (c.connected = true →
      hal_modbus_write_register (some c) addr value = (0, [])) := by
  refine ⟨rfl, rfl, fun hc => ⟨?_, ?_⟩, fun hc => ?_⟩
  · simp [hal_modbus_write_register, hc]
  · simp [hal_modbus_read_registers, hc]
  · simp [hal_modbus_write_register, hc]

/-- C8 witness: writing on a disconnected session returns -1; writing
on a connected session returns 0 with nothing transmitted. -/
theorem session_state_gating_witness :
    hal_modbus_write_register (some ⟨"COM3", 9600, 1, false⟩) 0 5 = (-1, []) ∧
    hal_modbus_write_register (some ⟨"COM3", 9600, 1, true⟩) 0 5 = (0, []) :=
  ⟨((session_state_gating 0 5 0 0 false (fun _ => 0) ⟨"COM3", 9600, 1, false⟩).2.2.1 rfl).1,
   (session_state_gating 0 5 0 0 false (fun _ => 0) ⟨"COM3", 9600, 1, true⟩).2.2.2 rfl⟩

/-- C9: for every transport behaviour (chunk stream) and every
schedule of per-iteration delays, the receive loop stops with either
at least 7 accumulated bytes or the 1000 ms deadline elapsed — it
never runs forever (`readLoop` is total by construction, with the
clock advancing at least 10 ms per poll) — and the subsequent
validation fails with IncompleteResponse, decoding no value, exactly
when fewer than 7 bytes were accumulated. -/
theorem read_loop_deadline (chunks : Nat → List Nat) (extra : Nat → Nat)
    (addr : Nat) :
    (7 ≤ (readLoop chunks extra 0 0 []).1.length ∨
      1000 ≤ (readLoop chunks extra 0 0 []).2) ∧
    (parseResponse addr (readLoop chunks extra 0 0 []).1 =
        .error .IncompleteResponse ↔
      (readLoop chunks extra 0 0 []).1.length < 7) := by
  constructor
  · have h := readLoop_reaches_stop chunks extra 100 0 0 [] (by norm_num)
    rcases h with h | h
    · simp at h
    · exact h
  · exact parse_incomplete_iff addr _

/-- C10: on a connected session with a non-NULL destination,
`hal_modbus_read_registers` returns 0 and fills all `num` slots with
simulated values in the range 1000 to 4999 inclusive. -/
theorem read_registers_simulated (a n : Nat) (r : Nat → Nat)
    (c : modbus_ctx) (hc : c.connected = true) :
    (hal_modbus_read_registers (some c) a n false r).1 = 0 ∧
    (hal_modbus_read_registers (some c) a n false r).2.length = n ∧
    ∀ v ∈ (hal_modbus_read_registers (some c) a n false r).2,
      1000 ≤ v ∧ v ≤ 4999 := by
  refine ⟨?_, ?_, ?_⟩
  · simp [hal_modbus_read_registers, hc]
  · simp [hal_modbus_read_registers, hc]
  · intro v hv
    simp [hal_modbus_read_registers, hc] at hv
    obtain ⟨i, hi, hvi⟩ := hv
    have hm : r i % 4000 < 4000 := Nat.mod_lt _ (by norm_num)
    omega

/-- C10 witness: three registers read on a connected session. -/
theorem read_registers_simulated_witness :
    (hal_modbus_read_registers (some ⟨"COM3", 9600, 1, true⟩) 0 3 false
      (fun i => i)).1 = 0 ∧
    (hal_modbus_read_registers (some ⟨"COM3", 9600, 1, true⟩) 0 3 false
      (fun i => i)).2.length = 3 :=
  ⟨(read_registers_simulated 0 3 (fun i => i) ⟨"COM3", 9600, 1, true⟩ rfl).1,
   (read_registers_simulated 0 3 (fun i => i) ⟨"COM3", 9600, 1, true⟩ rfl).2.1⟩
